import Mathlib

/-!
Shallow embedding of the SAIS availability prober (src/main.rs).

The probe protocol lives in `SaisClient::can_login`, `SaisClient::save_cookies_from_response`
and the `sais` command handler. We embed the pure decision logic of those functions:
HTTP transport results become `Except`/explicit data, the mutable cookie string becomes
explicit state passing, and the panic from an unchecked `unwrap` becomes `Option.none`.
-/

/-- Embeds `SaisConfig` (main.rs lines 46-50): the configured login URL and the
substring marking a successful login. -/
structure SaisConfig where
  login_url : String
  login_success_string : String
deriving DecidableEq

/-- Embeds `LoginDetails` (main.rs lines 20-27): the fixed credential tuple. -/
structure LoginDetails where
  timezoneOffset : Int
  userid : String
  pwd : String
  request_id : Nat
deriving DecidableEq

/-- Embeds the Step-1 GET response: HTTP status code and the raw bytes of each
`Set-Cookie` header value, in header order. -/
structure HttpResponse where
  statusCode : Nat
  setCookieValues : List (List Nat)
deriving DecidableEq

/-- Embeds Rust `str::contains` with a string pattern: substring containment. -/
def strContains (haystack needle : String) : Bool :=
  decide (needle.data <:+: haystack.data)

/-- Embeds `reqwest::StatusCode::is_success`: status in the 2xx range. -/
def isSuccessStatus (c : Nat) : Bool :=
  200 ≤ c && c < 300

/-- The literal invalid-credentials marker checked in `can_login` (main.rs line 140). -/
def invalidCredsString : String :=
  "Your UP Email ID and/or Password are invalid."

/-- The fixed User-Agent sent on the Step-2 POST (main.rs line 128). -/
def saisUserAgent : String :=
  "Is UP SAIS down?/1.0"

/-- The three diagnostic log cases printed by `can_login` (main.rs lines 135-147). -/
inductive LoginLog where
  | foundSuccess
  | invalidCredentials
  | markerAbsent
deriving DecidableEq

/-- The classification in `can_login` (main.rs lines 133-149): given the Step-2
result (transport or text failure as `Except.error`, otherwise the body text),
return the login Bool together with which diagnostic branch was logged.
Errors from `send().await?` / `text().await?` propagate unchanged. -/
def can_login (cfg : SaisConfig) (step2 : Except String String) :
    Except String (Bool × LoginLog) :=
  match step2 with
  | Except.error e => Except.error e
  | Except.ok result_text =>
    if strContains result_text cfg.login_success_string then
      Except.ok (true, LoginLog.foundSuccess)
    else if strContains result_text invalidCredsString then
      Except.ok (false, LoginLog.invalidCredentials)
    else
      Except.ok (false, LoginLog.markerAbsent)

/-- Embeds `http::HeaderValue::to_str` (called in main.rs line 156): succeeds
exactly when every byte is visible ASCII (32..126) or horizontal tab. -/
def isVisibleAscii (b : Nat) : Bool :=
  (32 ≤ b && b < 127) || b == 9

/-- `HeaderValue::to_str` as a fallible decode of the raw header bytes. -/
def headerValueToStr (bytes : List Nat) : Option String :=
  if bytes.all isVisibleAscii then some (String.mk (bytes.map Char.ofNat)) else none

/-- Embeds `SaisClient::save_cookies_from_response` (main.rs lines 152-158):
for each `Set-Cookie` header value in order, `self.cookies = format!("{};{}",
self.cookies, cookie.to_str().unwrap())`. The unchecked `unwrap` panics on a
non-visible-ASCII value; `none` models that panic. -/
def save_cookies_from_response (cookies : String) :
    List (List Nat) → Option String
  | [] => some cookies
  | v :: rest =>
    match headerValueToStr v with
    | none => none
    | some s => save_cookies_from_response (cookies ++ ";" ++ s) rest

/-- The Step-2 POST request assembled in `can_login` (main.rs lines 113-130):
form params in order, fixed User-Agent, Cookie header from the session string. -/
structure PostRequest where
  url : String
  formParams : List (String × String)
  userAgent : String
  cookieHeader : String
deriving DecidableEq

/-- Builds the Step-2 POST exactly as main.rs lines 114-130. -/
def buildLoginRequest (cfg : SaisConfig) (ld : LoginDetails) (cookies : String) :
    PostRequest :=
  { url := cfg.login_url
    formParams :=
      [("timezoneOffset", toString ld.timezoneOffset),
       ("userid", ld.userid),
       ("pwd", ld.pwd),
       ("request_id", toString ld.request_id)]
    userAgent := saisUserAgent
    cookieHeader := cookies }

/-- Embeds `current_time_utc_plus_8` (main.rs lines 336-339): shift UTC seconds
by the fixed +8 h offset (`FixedOffset::east(3600 * 8)`). -/
def current_time_utc_plus_8 (utcSecs : Nat) : Nat :=
  utcSecs + 3600 * 8

/-- Two-digit zero padding as in chrono `%H`/`%M`/`%S`. -/
def pad2 (n : Nat) : String :=
  if n < 10 then "0" ++ toString n else toString n

/-- chrono `format("%H:%M:%S")` on a seconds-of-day value. -/
def formatHMS (secsOfDay : Nat) : String :=
  pad2 (secsOfDay / 3600) ++ ":" ++ pad2 (secsOfDay % 3600 / 60) ++ ":" ++ pad2 (secsOfDay % 60)

/-- The probe outcomes of one cycle, as rendered by the `sais` handler.
`step2Error` is the `Err` arm of the `can_login` match (main.rs line 291),
carrying the propagated error. -/
inductive ProbeOutcome where
  | networkError
  | serviceDown
  | serviceUpLoginFailed
  | serviceUpLoginSucceeded
  | step2Error (e : String)
deriving DecidableEq

/-- Observable result of one `sais` probe cycle: the outcome, the cookie string
after the cycle, the reply text sent to the channel, and the Step-2 POST that
was issued (`none` when Step 3 was skipped). -/
structure SaisStep where
  outcome : ProbeOutcome
  cookies : String
  reply : String
  request : Option PostRequest
deriving DecidableEq

/-- Embeds the probe portion of the `sais` command handler (main.rs lines 242-331)
as a function of the initial cookie state and the two transport results.
`emoji tag` stands for the rendered guild emoji looked up by tag. On Step-1
transport failure the `Err` arm replies without touching cookies; on success the
cookie string is cleared and rebuilt from the response (`none` = the `unwrap`
panic inside `save_cookies_from_response`), the time prefix is formatted, and
the status branch decides whether the credentialed POST runs. -/
def sais_cycle (emoji : String → String) (utcNow : Nat) (cfg : SaisConfig)
    (ld : LoginDetails) (cookies0 : String)
    (step1 : Except String HttpResponse) (step2 : Except String String) :
    Option SaisStep :=
  match step1 with
  | Except.error _ =>
    some { outcome := ProbeOutcome.networkError
           cookies := cookies0
           reply := "Wala na dili na gyud muload " ++ emoji "response_fail"
           request := none }
  | Except.ok result =>
    match save_cookies_from_response "" result.setCookieValues with
    | none => none
    | some newCookies =>
      let timeStr := formatHMS (current_time_utc_plus_8 utcNow % 86400)
      let asOf := "As of " ++ timeStr ++ ","
      if isSuccessStatus result.statusCode then
        let req := buildLoginRequest cfg ld newCookies
        match can_login cfg step2 with
        | Except.ok (true, _) =>
          some { outcome := ProbeOutcome.serviceUpLoginSucceeded
                 cookies := newCookies
                 reply := asOf ++ " " ++ ("UP SAIS is up! " ++ emoji "login_ok")
                 request := some req }
        | Except.ok (false, _) =>
          some { outcome := ProbeOutcome.serviceUpLoginFailed
                 cookies := newCookies
                 reply := asOf ++ " " ++
                   ("UP SAIS is up, but there are login problems. " ++ emoji "login_fail")
                 request := some req }
        | Except.error e =>
          some { outcome := ProbeOutcome.step2Error e
                 cookies := newCookies
                 reply := asOf
                 request := some req }
      else
        some { outcome := ProbeOutcome.serviceDown
               cookies := newCookies
               reply := asOf ++ " " ++ ("UP SAIS is down... " ++ emoji "status_code_fail")
               request := none }

/-- Canonical shape of the rebuilt cookie string: each header value preceded by
a semicolon separator, in header order, starting from the cleared string. -/
def joinCookieValues (vals : List String) : String :=
  vals.foldl (fun acc v => acc ++ ";" ++ v) ""

/-- Concrete configuration used by witnesses. -/
def cfg0 : SaisConfig :=
  { login_url := "https://sais.up.edu.ph/psp/ps/?cmd=login", login_success_string := "LOGIN_OK" }

/-- Concrete credentials used by witnesses. -/
def ld0 : LoginDetails :=
  { timezoneOffset := -480, userid := "user", pwd := "hunter2", request_id := 5 }

/-- Concrete emoji lookup used by witnesses. -/
def emoji0 : String → String := fun _ => "E"

/-- A Step-2 body used by witnesses: carries both the success marker of `cfg0`
and the invalid-credentials string. -/
def bothMarkersBody : String :=
  "page LOGIN_OK Your UP Email ID and/or Password are invalid. end"

/-- A concrete Step-1 response used by witnesses: status 200, one
`Set-Cookie: sid=abc` header. -/
def resp200 : HttpResponse :=
  { statusCode := 200
    setCookieValues := [[115, 105, 100, 61, 97, 98, 99]] }

/-- A concrete Step-1 response with a non-success status. -/
def resp500 : HttpResponse :=
  { statusCode := 500
    setCookieValues := [[115, 105, 100, 61, 97, 98, 99]] }

/-- A concrete Step-1 response bearing `Set-Cookie: PS_TOKEN=abc`. -/
def respPSToken : HttpResponse :=
  { statusCode := 200
    setCookieValues := [[80, 83, 95, 84, 79, 75, 69, 78, 61, 97, 98, 99]] }

/-- A concrete Step-1 response whose `Set-Cookie` value carries an opaque
(non-visible-ASCII) byte. -/
def respOpaque : HttpResponse :=
  { statusCode := 200
    setCookieValues := [[128]] }

/-- A concrete Step-1 response bearing `Set-Cookie: a=1` and `Set-Cookie: b=2`. -/
def respA1B2 : HttpResponse :=
  { statusCode := 200
    setCookieValues := [[97, 61, 49], [98, 61, 50]] }

/-- The probe-cycle result for `respA1B2` with body `"LOGIN_OK"` at UTC second 0. -/
def stA1B2 : SaisStep :=
  { outcome := ProbeOutcome.serviceUpLoginSucceeded
    cookies := ";a=1;b=2"
    reply := "As of 08:00:00, UP SAIS is up! E"
    request := some (buildLoginRequest cfg0 ld0 ";a=1;b=2") }

/-- The probe-cycle result for `resp200` with body `"LOGIN_OK"` at UTC second 0. -/
def stOk200 : SaisStep :=
  { outcome := ProbeOutcome.serviceUpLoginSucceeded
    cookies := ";sid=abc"
    reply := "As of 08:00:00, UP SAIS is up! E"
    request := some (buildLoginRequest cfg0 ld0 ";sid=abc") }

/-- Once a header value fails to decode, the loop panics; otherwise the saved
string is the left fold of the previously saved string with each decoded value. -/
theorem save_cookies_eq_foldl (vs : List (List Nat)) :
    ∀ (c : String) (ss : List String), vs.mapM headerValueToStr = some ss →
      save_cookies_from_response c vs =
        some (ss.foldl (fun acc v => acc ++ ";" ++ v) c) := by
  induction vs with
  | nil =>
    intro c ss h
    simp only [List.mapM_nil, pure, Option.some_inj] at h
    subst h
    rfl
  | cons v rest ih =>
    intro c ss h
    simp only [List.mapM_cons, bind, Option.bind_eq_some, pure,
      Option.some_inj] at h
    obtain ⟨s, hs, ss2, h2, rfl⟩ := h
    simp only [save_cookies_from_response, hs, List.foldl_cons]
    exact ih _ _ h2

/-- C1: any Step-2 body containing the configured success marker classifies as
login success (`Ok(true)`, the success log branch), whatever else the body
contains — in particular even if it also contains the invalid-credentials
string, because the success check runs first. -/
theorem can_login_success_marker_wins (cfg : SaisConfig) (body : String)
    (h : strContains body cfg.login_success_string = true) :
    can_login cfg (Except.ok body) = Except.ok (true, LoginLog.foundSuccess) := by
  simp [can_login, h]

/-- Witness for C1: a concrete body containing both the success marker and the
invalid-credentials string still classifies as success. -/
theorem can_login_success_marker_wins_witness :
    strContains bothMarkersBody cfg0.login_success_string = true ∧
    strContains bothMarkersBody invalidCredsString = true ∧
    can_login cfg0 (Except.ok bothMarkersBody) =
      Except.ok (true, LoginLog.foundSuccess) :=
  ⟨by decide, by decide, can_login_success_marker_wins cfg0 bothMarkersBody (by decide)⟩

/-- C5: any Step-2 body not containing the success marker classifies as
`Ok(false)`; whether the invalid-credentials string is present only changes the
diagnostic log branch, never the returned value. -/
theorem can_login_no_success_marker_fails (cfg : SaisConfig) (body : String)
    (h : strContains body cfg.login_success_string = false) :
    can_login cfg (Except.ok body) =
      Except.ok (false,
        if strContains body invalidCredsString then LoginLog.invalidCredentials
        else LoginLog.markerAbsent) := by
  simp only [can_login, h, Bool.false_eq_true, if_false]
  split <;> rfl

/-- Witness for C5: a concrete body carrying only the invalid-credentials string
classifies as `Ok(false)` with the invalid-credentials log branch. -/
theorem can_login_no_success_marker_fails_witness :
    strContains "Your UP Email ID and/or Password are invalid." cfg0.login_success_string = false ∧
    can_login cfg0 (Except.ok "Your UP Email ID and/or Password are invalid.") =
      Except.ok (false, LoginLog.invalidCredentials) :=
  ⟨by decide, by
    have h := can_login_no_success_marker_fails cfg0
      "Your UP Email ID and/or Password are invalid." (by decide)
    rw [h]
    rfl⟩

/-- Counterexample to C2 as stated: a cycle whose Step-1 GET fails does not
leave the cookie string empty. A first, successful cycle saves
`Set-Cookie: PS_TOKEN=abc` into the session; the next cycle fails at Step 1 and
the cookie string still holds the previous cycle's content, because the clear
happens only inside the transport-success arm (main.rs line 246). -/
theorem sais_networkError_stale_cookies_cex :
    (sais_cycle emoji0 0 cfg0 ld0 "" (Except.ok respPSToken)
        (Except.ok "LOGIN_OK")).map SaisStep.cookies = some ";PS_TOKEN=abc" ∧
    (sais_cycle emoji0 60 cfg0 ld0 ";PS_TOKEN=abc"
        (Except.error "timeout") (Except.ok "")).map SaisStep.cookies =
      some ";PS_TOKEN=abc" ∧
    (";PS_TOKEN=abc" : String) ≠ "" :=
  ⟨rfl, rfl, by decide⟩

/-- C2 (amended): a Step-1 transport failure yields the NetworkError reply,
issues no Step-2 POST and leaves the cookie string exactly as it was — the
reset to empty happens only after a Step-1 transport success, so a failed cycle
can retain cookie content from a previous cycle. -/
theorem sais_networkError_behavior (emoji : String → String) (u : Nat)
    (cfg : SaisConfig) (ld : LoginDetails) (c0 : String) (e : String)
    (step2 : Except String String) :
    sais_cycle emoji u cfg ld c0 (Except.error e) step2 =
      some { outcome := ProbeOutcome.networkError
             cookies := c0
             reply := "Wala na dili na gyud muload " ++ emoji "response_fail"
             request := none } := rfl

/-- C3: a Step-1 response with a non-success status yields ServiceDown and no
credentialed POST is issued in that cycle. -/
theorem sais_non_success_status_serviceDown (emoji : String → String) (u : Nat)
    (cfg : SaisConfig) (ld : LoginDetails) (c0 : String) (r : HttpResponse)
    (step2 : Except String String) (nc : String)
    (hsave : save_cookies_from_response "" r.setCookieValues = some nc)
    (hstatus : isSuccessStatus r.statusCode = false) :
    sais_cycle emoji u cfg ld c0 (Except.ok r) step2 =
      some { outcome := ProbeOutcome.serviceDown
             cookies := nc
             reply := "As of " ++ formatHMS (current_time_utc_plus_8 u % 86400) ++ "," ++
               " " ++ ("UP SAIS is down... " ++ emoji "status_code_fail")
             request := none } := by
  simp [sais_cycle, hsave, hstatus]

/-- Witness for C3: a concrete 500 response produces ServiceDown with no POST. -/
theorem sais_non_success_status_serviceDown_witness :
    save_cookies_from_response "" resp500.setCookieValues = some ";sid=abc" ∧
    isSuccessStatus resp500.statusCode = false ∧
    sais_cycle emoji0 0 cfg0 ld0 ";old" (Except.ok resp500) (Except.ok "") =
      some { outcome := ProbeOutcome.serviceDown
             cookies := ";sid=abc"
             reply := "As of " ++ formatHMS (current_time_utc_plus_8 0 % 86400) ++ "," ++
               " " ++ ("UP SAIS is down... " ++ emoji0 "status_code_fail")
             request := none } :=
  ⟨by decide, by decide,
    sais_non_success_status_serviceDown emoji0 0 cfg0 ld0 ";old" resp500
      (Except.ok "") ";sid=abc" (by decide) (by decide)⟩

/-- C10: `save_cookies_from_response` returns normally exactly when every
`Set-Cookie` header value decodes as visible-ASCII text (the unchecked
`unwrap` on `to_str`); a response carrying an opaque byte (0x80) makes the
probe cycle panic — no outcome, no reply. -/
theorem save_cookies_unwrap_panics :
    (∀ (c : String) (vs : List (List Nat)),
      (save_cookies_from_response c vs).isSome =
        vs.all (fun v => (headerValueToStr v).isSome)) ∧
    sais_cycle emoji0 0 cfg0 ld0 "" (Except.ok respOpaque)
      (Except.ok "LOGIN_OK") = none := by
  constructor
  · intro c vs
    induction vs generalizing c with
    | nil => rfl
    | cons v rest ih =>
      simp only [save_cookies_from_response, List.all_cons]
      cases h : headerValueToStr v with
      | none => simp [h]
      | some s => simp [h, ih]
  · rfl

/-- C4: whenever a Step-1 GET succeeds at the transport level (and every
`Set-Cookie` value decodes), the previous cookie content is discarded and the
session cookie string becomes the fold of the decoded header values in header
order, each preceded by a semicolon separator — independent of the cookie
string the cycle started with. -/
theorem sais_cookies_rebuilt_from_headers (emoji : String → String) (u : Nat)
    (cfg : SaisConfig) (ld : LoginDetails) (c0 : String) (r : HttpResponse)
    (step2 : Except String String) (ss : List String) (st : SaisStep)
    (hdec : r.setCookieValues.mapM headerValueToStr = some ss)
    (hrun : sais_cycle emoji u cfg ld c0 (Except.ok r) step2 = some st) :
    st.cookies = joinCookieValues ss := by
  have hsave := save_cookies_eq_foldl r.setCookieValues "" ss hdec
  simp only [sais_cycle, hsave] at hrun
  split at hrun
  · split at hrun <;> (injection hrun with h; subst h; rfl)
  · injection hrun with h
    subst h
    rfl

/-- Witness for C4: headers `Set-Cookie: a=1`, `Set-Cookie: b=2` rebuild the
cookie string as `";a=1;b=2"` — both fragments, semicolon-separated, in header
order — even though the cycle started with stale cookie content. -/
theorem sais_cookies_rebuilt_from_headers_witness :
    respA1B2.setCookieValues.mapM headerValueToStr = some ["a=1", "b=2"] ∧
    sais_cycle emoji0 0 cfg0 ld0 ";stale" (Except.ok respA1B2) (Except.ok "LOGIN_OK") =
      some stA1B2 ∧
    stA1B2.cookies = joinCookieValues ["a=1", "b=2"] ∧
    stA1B2.cookies = ";a=1;b=2" :=
  ⟨by decide, rfl,
    sais_cookies_rebuilt_from_headers emoji0 0 cfg0 ld0 ";stale" respA1B2
      (Except.ok "LOGIN_OK") ["a=1", "b=2"] stA1B2 (by decide) rfl,
    by decide⟩

/-- C6: a transport failure on the Step-2 POST propagates out of `can_login`
as `Except.error` (not downgraded to any `Ok` value), and the cycle records it
as the distinct `step2Error` outcome — different from NetworkError and from
every other outcome — with its own reply (the bare time prefix). -/
theorem sais_step2_transport_error_distinct (emoji : String → String) (u : Nat)
    (cfg : SaisConfig) (ld : LoginDetails) (c0 : String) (r : HttpResponse)
    (e : String) (nc : String)
    (hsave : save_cookies_from_response "" r.setCookieValues = some nc)
    (hstatus : isSuccessStatus r.statusCode = true) :
    can_login cfg (Except.error e) = Except.error e ∧
    sais_cycle emoji u cfg ld c0 (Except.ok r) (Except.error e) =
      some { outcome := ProbeOutcome.step2Error e
             cookies := nc
             reply := "As of " ++ formatHMS (current_time_utc_plus_8 u % 86400) ++ ","
             request := some (buildLoginRequest cfg ld nc) } ∧
    ProbeOutcome.step2Error e ≠ ProbeOutcome.networkError ∧
    ProbeOutcome.step2Error e ≠ ProbeOutcome.serviceDown ∧
    ProbeOutcome.step2Error e ≠ ProbeOutcome.serviceUpLoginFailed ∧
    ProbeOutcome.step2Error e ≠ ProbeOutcome.serviceUpLoginSucceeded := by
  refine ⟨rfl, ?_, by simp, by simp, by simp, by simp⟩
  simp [sais_cycle, hsave, hstatus, can_login]

/-- Witness for C6: a concrete Step-2 timeout on a 200 Step-1 response. -/
theorem sais_step2_transport_error_distinct_witness :
    save_cookies_from_response "" resp200.setCookieValues = some ";sid=abc" ∧
    isSuccessStatus resp200.statusCode = true ∧
    can_login cfg0 (Except.error "timeout") = Except.error "timeout" ∧
    sais_cycle emoji0 0 cfg0 ld0 "" (Except.ok resp200) (Except.error "timeout") =
      some { outcome := ProbeOutcome.step2Error "timeout"
             cookies := ";sid=abc"
             reply := "As of " ++ formatHMS (current_time_utc_plus_8 0 % 86400) ++ ","
             request := some (buildLoginRequest cfg0 ld0 ";sid=abc") } := by
  have h := sais_step2_transport_error_distinct emoji0 0 cfg0 ld0 "" resp200
    "timeout" ";sid=abc" (by decide) (by decide)
  exact ⟨by decide, by decide, h.1, h.2.1⟩

/-- C8: every credentialed POST issued by a cycle goes to the configured login
URL, carries exactly the four form keys from the credential tuple, the fixed
identifying User-Agent, and a Cookie header equal to the session cookie string
saved in Step 1 of that same cycle. -/
theorem sais_login_post_shape (emoji : String → String) (u : Nat)
    (cfg : SaisConfig) (ld : LoginDetails) (c0 : String) (r : HttpResponse)
    (step2 : Except String String) (st : SaisStep) (req : PostRequest)
    (hrun : sais_cycle emoji u cfg ld c0 (Except.ok r) step2 = some st)
    (hreq : st.request = some req) :
    req.url = cfg.login_url ∧
    req.formParams =
      [("timezoneOffset", toString ld.timezoneOffset), ("userid", ld.userid),
       ("pwd", ld.pwd), ("request_id", toString ld.request_id)] ∧
    req.userAgent = "Is UP SAIS down?/1.0" ∧
    req.cookieHeader = st.cookies := by
  cases hs : save_cookies_from_response "" r.setCookieValues with
  | none =>
    simp only [sais_cycle, hs] at hrun
    exact Option.noConfusion hrun
  | some nc =>
    simp only [sais_cycle, hs] at hrun
    split at hrun
    · split at hrun <;>
        (injection hrun with h; subst h; injection hreq with h2; subst h2;
          exact ⟨rfl, rfl, rfl, rfl⟩)
    · injection hrun with h
      subst h
      cases hreq

/-- Witness for C8: the POST issued on the concrete 200-with-`sid=abc` cycle. -/
theorem sais_login_post_shape_witness :
    (buildLoginRequest cfg0 ld0 ";sid=abc").url = cfg0.login_url ∧
    (buildLoginRequest cfg0 ld0 ";sid=abc").formParams =
      [("timezoneOffset", toString ld0.timezoneOffset), ("userid", ld0.userid),
       ("pwd", ld0.pwd), ("request_id", toString ld0.request_id)] ∧
    (buildLoginRequest cfg0 ld0 ";sid=abc").userAgent = "Is UP SAIS down?/1.0" ∧
    (buildLoginRequest cfg0 ld0 ";sid=abc").cookieHeader = SaisStep.cookies stOk200 :=
  sais_login_post_shape emoji0 0 cfg0 ld0 "" resp200 (Except.ok "LOGIN_OK")
    stOk200 (buildLoginRequest cfg0 ld0 ";sid=abc") rfl rfl

/-- Counterexample to C7 as stated: the reply sent for a Step-1 transport
failure (the NetworkError outcome) carries no wall-clock time at all — it is
the fixed string plus the emoji, and the formatted HH:MM:SS of the probe time
does not occur in it. -/
theorem sais_networkError_reply_untimed_cex :
    (sais_cycle emoji0 0 cfg0 ld0 "" (Except.error "timeout") (Except.ok "")).map
      SaisStep.reply = some "Wala na dili na gyud muload E" ∧
    strContains "Wala na dili na gyud muload E"
      (formatHMS (current_time_utc_plus_8 0 % 86400)) = false :=
  ⟨rfl, by decide⟩

/-- C7 (amended): every reply sent for a cycle whose Step-1 GET succeeded at
the transport level is prefixed with the probe's wall-clock time at the fixed
UTC+8 offset, formatted HH:MM:SS (as `"As of HH:MM:SS,"`); the NetworkError
reply carries no such prefix. -/
theorem sais_ok_reply_time_prefixed (emoji : String → String) (u : Nat)
    (cfg : SaisConfig) (ld : LoginDetails) (c0 : String) (r : HttpResponse)
    (step2 : Except String String) (st : SaisStep)
    (hrun : sais_cycle emoji u cfg ld c0 (Except.ok r) step2 = some st) :
    ∃ rest, st.reply =
      "As of " ++ formatHMS (current_time_utc_plus_8 u % 86400) ++ "," ++ rest := by
  cases hs : save_cookies_from_response "" r.setCookieValues with
  | none =>
    simp only [sais_cycle, hs] at hrun
    exact Option.noConfusion hrun
  | some nc =>
    simp only [sais_cycle, hs] at hrun
    split at hrun
    · split at hrun
      · injection hrun with h
        subst h
        exact ⟨" " ++ ("UP SAIS is up! " ++ emoji "login_ok"),
          String.append_assoc _ " " _⟩
      · injection hrun with h
        subst h
        exact ⟨" " ++ ("UP SAIS is up, but there are login problems. " ++ emoji "login_fail"),
          String.append_assoc _ " " _⟩
      · injection hrun with h
        subst h
        exact ⟨"", (String.append_empty _).symm⟩
    · injection hrun with h
      subst h
      exact ⟨" " ++ ("UP SAIS is down... " ++ emoji "status_code_fail"),
        String.append_assoc _ " " _⟩

/-- Witness for C7 (amended): the concrete successful cycle's reply starts with
the formatted probe time. -/
theorem sais_ok_reply_time_prefixed_witness :
    ∃ rest, stOk200.reply =
      "As of " ++ formatHMS (current_time_utc_plus_8 0 % 86400) ++ "," ++ rest :=
  sais_ok_reply_time_prefixed emoji0 0 cfg0 ld0 "" resp200 (Except.ok "LOGIN_OK")
    stOk200 rfl
